import Mathlib

/-!
Verification development for the onixpy repository (ONIX for Books message
models, validation and XML/JSON serialization).

The Python sources under src/src/onix are shallowly embedded here:

* pydantic models become Lean structures, and pydantic validation
  (`Model.model_validate(data)` / keyword construction, which pydantic
  treats identically) becomes an explicit `Except String Model` function
  over a JSON-like value type `Val`;
* `model_dump(exclude_none=True, exclude_defaults=True)` becomes an
  explicit dump function;
* XML elements (`xml.etree` / `lxml` elements, which `message_to_xml`
  produces and `xml_to_message` accepts directly) become the `Elem`
  structure, and the serializer / parser functions of
  src/src/onix/parsers/xml.py are translated over it;
* the code-list registry of src/src/onix/lists/__init__.py and the tag
  resolver of src/src/onix/parsers/tags.py are translated directly.

pydantic v2 error reports may collect several errors; the embedding
returns the first error it encounters.  Every claim below depends only on
whether construction succeeds and on the text of the single error that the
relevant concrete input produces.  Error strings are kept close to the
source but drop the quoting around interpolated values.
-/

namespace OnixSpec

/-- JSON-like values: the inputs of `model_validate` and outputs of
`model_dump`.  `null` is Python `None` (also produced by the
empty-string normalization of `ONIXModel`). -/
inductive Val where
  | null : Val
  | s : String → Val
  | b : Bool → Val
  | obj : List (String × Val) → Val
  | arr : List Val → Val
  deriving Repr

/-- Whether a value is Python `None`. -/
def valIsNull : Val → Bool
  | .null => true
  | _ => false

/-- Python truthiness of an optional value (absent counts as falsy, the
way `data.get(key)` feeds `if`). -/
def pyTruthy : Option Val → Bool
  | none => false
  | some .null => false
  | some (.s v) => !(v == "")
  | some (.b v) => v
  | some (.obj kvs) => !kvs.isEmpty
  | some (.arr vs) => !vs.isEmpty

/-- Python `str()` of a value.  The claims below only ever apply it to
strings; the container cases stand in for the `repr`-style text Python
would produce. -/
def pyStr : Val → String
  | .null => "None"
  | .s v => v
  | .b true => "True"
  | .b false => "False"
  | .obj _ => "dict"
  | .arr _ => "list"

/-- Python `str.isdigit` on ASCII content: non-empty and all digits. -/
def pyIsDigit (v : String) : Bool :=
  !v.isEmpty && v.toList.all Char.isDigit

/-- Success test for the embedded validators. -/
def isOkE {α : Type} : Except String α → Bool
  | .ok _ => true
  | .error _ => false

/-! ## src/src/onix/parsers/tags.py -/

/-- `_REFERENCE_TO_SHORT`: the registered reference-name to short-tag
pairs (the source ships this minimal set). -/
def referenceToShort : List (String × String) :=
  [("ONIXMessage", "ONIXmessage"),
   ("Header", "header"),
   ("Product", "product"),
   ("NoProduct", "x507")]

/-- `_SHORT_TO_REFERENCE`: the reverse of `referenceToShort`. -/
def shortToReference : List (String × String) :=
  referenceToShort.map (fun p => (p.2, p.1))

/-- `to_short_tag`: mapped short tag, or the input unchanged. -/
def toShortTag (referenceName : String) : String :=
  (referenceToShort.lookup referenceName).getD referenceName

/-- `to_reference_tag`: mapped reference name, or the input unchanged. -/
def toReferenceTag (shortTag : String) : String :=
  (shortToReference.lookup shortTag).getD shortTag

/-! ## Name conversion and the field registry

Modelled from the spec: the module `onix/parsers/fields.py`
(`register_model`, `register_plural_mapping`, `tag_to_field_name`,
`field_name_to_tag`) is imported by src/src/onix/parsers/xml.py but is not
present under src/.  Following spec section 4.2, the resolution table maps
each registered reference tag (the pydantic field aliases of the models
registered in `_register_models`, plus the four explicit plural mappings)
to its field name, and unregistered tags fall back to the generic
acronym-aware CamelCase to snake_case conversion (spec examples:
ISBNNumber to isbn_number, XMLHTTPServer to xmlhttp_server). -/

/-- Generic CamelCase to snake_case conversion over a character list.
An underscore is inserted before an upper-case letter that follows a
lower-case letter or digit, or that precedes a lower-case letter; all
letters are lower-cased. -/
def camelToSnakeGo : Option Char → List Char → List Char
  | _, [] => []
  | prev, c :: rest =>
      let sep : Bool :=
        match prev with
        | none => false
        | some p =>
            c.isUpper &&
              (p.isLower || p.isDigit ||
                (match rest with
                 | r :: _ => r.isLower
                 | [] => false))
      let tail := camelToSnakeGo (some c) rest
      if sep then '_' :: c.toLower :: tail else c.toLower :: tail

/-- Modelled from the spec: generic CamelCase to snake_case conversion. -/
def camelToSnake (t : String) : String :=
  String.mk (camelToSnakeGo none t.toList)

/-- Modelled from the spec: capitalize one snake_case part. -/
def capitalizePart (cs : List Char) : List Char :=
  match cs with
  | [] => []
  | c :: rest => c.toUpper :: rest

/-- Modelled from the spec: generic snake_case to CamelCase conversion
(split on underscores, capitalize each part). -/
def snakeToCamel (f : String) : String :=
  String.mk (((f.splitOn "_").map (fun part => capitalizePart part.toList)).foldr
    (fun a acc => a ++ acc) [])

/-- Modelled from the spec: the alias table built by `register_model` for
ONIXMessage, Header, Sender, SenderIdentifier, Addressee,
AddresseeIdentifier and Product (their `Field(alias=...)` declarations),
plus the four `register_plural_mapping` registrations made in
src/src/onix/parsers/xml.py. -/
def aliasToField : List (String × String) :=
  [ -- Header (src/src/onix/header/header.py)
   ("Sender", "sender"),
   ("Addressee", "addressees"),
   ("MessageNumber", "message_number"),
   ("MessageRepeat", "message_repeat"),
   ("SentDateTime", "sent_date_time"),
   ("MessageNote", "message_note"),
   ("DefaultLanguageOfText", "default_language_of_text"),
   ("DefaultPriceType", "default_price_type"),
   ("DefaultCurrencyCode", "default_currency_code"),
   -- Sender
   ("SenderIdentifier", "sender_identifiers"),
   ("SenderName", "sender_name"),
   ("ContactName", "contact_name"),
   ("TelephoneNumber", "telephone_number"),
   ("EmailAddress", "email_address"),
   -- SenderIdentifier
   ("SenderIDType", "sender_id_type"),
   ("IDTypeName", "id_type_name"),
   ("IDValue", "id_value"),
   -- Addressee / AddresseeIdentifier
   ("AddresseeIdentifier", "addressee_identifiers"),
   ("AddresseeName", "addressee_name"),
   ("AddresseeIDType", "addressee_id_type"),
   -- Product (src/src/onix/product/__init__.py)
   ("RecordReference", "record_reference"),
   ("NotificationType", "notification_type"),
   ("DeletionText", "deletion_texts"),
   ("RecordSourceType", "record_source_type"),
   ("RecordSourceIdentifier", "record_source_identifiers"),
   ("RecordSourceName", "record_source_name"),
   ("ProductIdentifier", "product_identifiers"),
   ("Barcode", "barcodes"),
   ("DescriptiveDetail", "descriptive_detail"),
   -- register_plural_mapping calls in src/src/onix/parsers/xml.py
   ("Product", "products")]

/-- Modelled from the spec: `tag_to_field_name` (registered mapping first,
generic conversion otherwise). -/
def tagToFieldName (tag : String) : String :=
  (aliasToField.lookup tag).getD (camelToSnake tag)

/-- Modelled from the spec: the reverse table for `field_name_to_tag`. -/
def fieldToAlias : List (String × String) :=
  aliasToField.map (fun p => (p.2, p.1))

/-- Modelled from the spec: `field_name_to_tag` (registered mapping first,
generic conversion otherwise). -/
def fieldNameToTag (f : String) : String :=
  (fieldToAlias.lookup f).getD (snakeToCamel f)

/-! ## src/src/onix/lists/__init__.py

The registry as shipped: `_CODE_LISTS` registers only List 44 with five
entries.  The files list3.py, list58.py, list74.py, list96.py, list141.py
and list142.py exist in the package but are never imported by
lists/__init__.py, so `get_code` can only ever find List 44 codes.
The `notes` strings of the entries are omitted here (no claim reads
them). -/

/-- `CodeListEntry` dataclass (notes omitted). -/
structure CodeListEntry where
  list_number : Nat
  code : String
  heading : String
  added_version : Option Nat := none
  modified_version : Option Nat := none
  deprecated_version : Option Nat := none
  deriving DecidableEq, Repr

/-- `CodeList` dataclass. -/
structure CodeList where
  number : Nat
  heading : String
  scope_note : String
  entries : List (String × CodeListEntry)
  deriving DecidableEq, Repr

/-- `_LIST_44_ENTRIES`. -/
def list44Entries : List (String × CodeListEntry) :=
  [("01", { list_number := 44, code := "01", heading := "Proprietary name ID scheme",
            added_version := some 10, modified_version := some 70 }),
   ("06", { list_number := 44, code := "06", heading := "GLN",
            added_version := some 1, modified_version := some 9 }),
   ("07", { list_number := 44, code := "07", heading := "SAN",
            added_version := some 1, modified_version := some 6 }),
   ("16", { list_number := 44, code := "16", heading := "ISNI",
            added_version := some 10 }),
   ("21", { list_number := 44, code := "21", heading := "ORCID",
            added_version := some 13 })]

/-- `_CODE_LISTS`: only List 44 is registered. -/
def codeLists : List (Nat × CodeList) :=
  [(44, { number := 44, heading := "Name identifier type",
          scope_note := "Used with NameIDType, SenderIDType, AddresseeIDType, ImprintIDType, PublisherIDType, and others.",
          entries := list44Entries })]

/-- `get_list`. -/
def getList (n : Nat) : Option CodeList :=
  codeLists.lookup n

/-- `get_code`. -/
def getCode (n : Nat) (c : String) : Option CodeListEntry :=
  match getList n with
  | none => none
  | some cl => cl.entries.lookup c

/-! ## src/src/onix/_base.py : ONIXModel

`ONIXModel` configures pydantic with `extra="forbid"`,
`validate_by_name=True`, `validate_by_alias=True`, and installs a
before-validator `_normalize_strings` that requires a dict input and
recursively converts empty strings to None.  The embedding gives every
ONIXModel subclass a validator that (1) rejects non-dict inputs,
(2) normalizes the values, (3) rejects keys that are neither a field name
nor an alias, and (4) validates the fields in definition order, running
the source field validators and then the `mode="after"` model
validators. -/

mutual

/-- `_normalize_strings.normalize`: empty string to None, recursively. -/
def normalizeVal : Val → Val
  | .s v => if v == "" then .null else .s v
  | .obj kvs => .obj (normalizeKVs kvs)
  | .arr vs => .arr (normalizeVals vs)
  | v => v

/-- Normalization over the entries of a dict (keys unchanged). -/
def normalizeKVs : List (String × Val) → List (String × Val)
  | [] => []
  | (k, v) :: rest => (k, normalizeVal v) :: normalizeKVs rest

/-- Normalization over the items of a list. -/
def normalizeVals : List Val → List Val
  | [] => []
  | v :: rest => normalizeVal v :: normalizeVals rest

end

/-- Value of a field that may be passed by alias or by field name
(`validate_by_alias` and `validate_by_name`; the alias wins when both
keys are present). -/
def fieldVal (kvs : List (String × Val)) (al nm : String) : Option Val :=
  match kvs.lookup al with
  | some v => some v
  | none => kvs.lookup nm

/-- Required `str` field addressed by alias or name. -/
def reqStr (kvs : List (String × Val)) (al nm : String) : Except String String :=
  match fieldVal kvs al nm with
  | none => .error (al ++ ": Field required")
  | some (.s v) => .ok v
  | some _ => .error (al ++ ": Input should be a valid string")

/-- Optional `str | None` field addressed by alias or name. -/
def optStr (kvs : List (String × Val)) (al nm : String) : Except String (Option String) :=
  match fieldVal kvs al nm with
  | none => .ok none
  | some .null => .ok none
  | some (.s v) => .ok (some v)
  | some _ => .error (al ++ ": Input should be a valid string")

/-- Validate every item of a list-valued field. -/
def validateList {α : Type} (f : Val → Except String α) :
    List Val → Except String (List α)
  | [] => .ok []
  | v :: rest => do
      let x ← f v
      let xs ← validateList f rest
      .ok (x :: xs)

/-- A `list[Model]` field with `default_factory=list`, addressed by alias
or name. -/
def listField {α : Type} (kvs : List (String × Val)) (al nm : String)
    (f : Val → Except String α) : Except String (List α) :=
  match fieldVal kvs al nm with
  | none => .ok []
  | some (.arr vs) => validateList f vs
  | some _ => .error (al ++ ": Input should be a valid list")

/-- A code-list membership field validator: the code must be found by
`get_code` in the given list, else the error names the list number. -/
def codeListCheck (n : Nat) (field : String) (t : String) :
    Except String String :=
  if (getCode n t).isNone then
    .error ("Invalid " ++ field ++ ": " ++ t ++ " is not a valid List " ++
      toString n ++ " code")
  else .ok t

/-- The pydantic `max_length` constraint on a required string. -/
def maxLenStr (n : Nat) (k : String) (v : String) : Except String String :=
  if v.length > n then
    .error (k ++ ": String should have at most " ++ toString n ++ " characters")
  else .ok v

/-- Python falsiness of an optional string (`not self.field`): None and
the empty string are falsy. -/
def pyFalsyStr : Option String → Bool
  | none => true
  | some v => v == ""

/-- `validate_proprietary_id_type` of src/src/onix/_base.py, as the
condition under which it raises. -/
def proprietaryViolation (idType : String) (idTypeName : Option String) : Bool :=
  idType == "01" && pyFalsyStr idTypeName

/-! ## src/src/onix/header/header.py -/

/-- `SenderIdentifier` model. -/
structure SenderIdentifier where
  sender_id_type : String
  id_type_name : Option String
  id_value : String
  deriving DecidableEq, Repr

/-- The keys `SenderIdentifier` accepts (aliases and field names). -/
def senderIdentifierKeys : List String :=
  ["SenderIDType", "sender_id_type", "IDTypeName", "id_type_name",
   "IDValue", "id_value"]

/-- Field validation of `SenderIdentifier` (before the after-validator). -/
def buildSenderIdentifier (kvs : List (String × Val)) :
    Except String SenderIdentifier := do
  let t ← reqStr kvs "SenderIDType" "sender_id_type"
  let t ← codeListCheck 44 "SenderIDType" t
  let tn ← optStr kvs "IDTypeName" "id_type_name"
  let idv ← reqStr kvs "IDValue" "id_value"
  .ok { sender_id_type := t, id_type_name := tn, id_value := idv }

/-- `SenderIdentifier` construction. -/
def validateSenderIdentifier (input : Val) : Except String SenderIdentifier :=
  match input with
  | .obj raw =>
      let kvs := normalizeKVs raw
      if !(kvs.filter (fun p => !(senderIdentifierKeys.contains p.1))).isEmpty then
        .error "Extra inputs are not permitted"
      else
        match buildSenderIdentifier kvs with
        | .error e => .error e
        | .ok m =>
            if proprietaryViolation m.sender_id_type m.id_type_name then
              .error "IDTypeName is required for proprietary SenderIDType 01"
            else .ok m
  | _ => .error "ONIXModel expects a dict input"

/-- `Sender` model. -/
structure Sender where
  sender_identifiers : List SenderIdentifier
  sender_name : Option String
  contact_name : Option String
  telephone_number : Option String
  email_address : Option String
  deriving DecidableEq, Repr

/-- The keys `Sender` accepts. -/
def senderKeys : List String :=
  ["SenderIdentifier", "sender_identifiers", "SenderName", "sender_name",
   "ContactName", "contact_name", "TelephoneNumber", "telephone_number",
   "EmailAddress", "email_address"]

/-- Field validation of `Sender` (before the after-validator). -/
def buildSender (kvs : List (String × Val)) : Except String Sender := do
  let ids ← listField kvs "SenderIdentifier" "sender_identifiers"
    validateSenderIdentifier
  let nm ← optStr kvs "SenderName" "sender_name"
  let cn ← optStr kvs "ContactName" "contact_name"
  let tel ← optStr kvs "TelephoneNumber" "telephone_number"
  let em ← optStr kvs "EmailAddress" "email_address"
  .ok { sender_identifiers := ids, sender_name := nm, contact_name := cn,
        telephone_number := tel, email_address := em }

/-- `Sender` construction, including the `_ensure_not_empty`
after-validator. -/
def validateSender (input : Val) : Except String Sender :=
  match input with
  | .obj raw =>
      let kvs := normalizeKVs raw
      if !(kvs.filter (fun p => !(senderKeys.contains p.1))).isEmpty then
        .error "Extra inputs are not permitted"
      else
        match buildSender kvs with
        | .error e => .error e
        | .ok m =>
            if pyFalsyStr m.sender_name && m.sender_identifiers.isEmpty then
              .error "Sender must include at least one of sender_name or sender_identifiers"
            else .ok m
  | _ => .error "ONIXModel expects a dict input"

/-- `AddresseeIdentifier` model. -/
structure AddresseeIdentifier where
  addressee_id_type : String
  id_type_name : Option String
  id_value : String
  deriving DecidableEq, Repr

/-- The keys `AddresseeIdentifier` accepts. -/
def addresseeIdentifierKeys : List String :=
  ["AddresseeIDType", "addressee_id_type", "IDTypeName", "id_type_name",
   "IDValue", "id_value"]

/-- Field validation of `AddresseeIdentifier`. -/
def buildAddresseeIdentifier (kvs : List (String × Val)) :
    Except String AddresseeIdentifier := do
  let t ← reqStr kvs "AddresseeIDType" "addressee_id_type"
  let t ← codeListCheck 44 "AddresseeIDType" t
  let tn ← optStr kvs "IDTypeName" "id_type_name"
  let idv ← reqStr kvs "IDValue" "id_value"
  .ok { addressee_id_type := t, id_type_name := tn, id_value := idv }

/-- `AddresseeIdentifier` construction. -/
def validateAddresseeIdentifier (input : Val) :
    Except String AddresseeIdentifier :=
  match input with
  | .obj raw =>
      let kvs := normalizeKVs raw
      if !(kvs.filter (fun p => !(addresseeIdentifierKeys.contains p.1))).isEmpty then
        .error "Extra inputs are not permitted"
      else
        match buildAddresseeIdentifier kvs with
        | .error e => .error e
        | .ok m =>
            if proprietaryViolation m.addressee_id_type m.id_type_name then
              .error "IDTypeName is required for proprietary AddresseeIDType 01"
            else .ok m
  | _ => .error "ONIXModel expects a dict input"

/-- `Addressee` model: all fields optional, no after-validator. -/
structure Addressee where
  addressee_identifiers : List AddresseeIdentifier
  addressee_name : Option String
  contact_name : Option String
  telephone_number : Option String
  email_address : Option String
  deriving DecidableEq, Repr

/-- The keys `Addressee` accepts. -/
def addresseeKeys : List String :=
  ["AddresseeIdentifier", "addressee_identifiers", "AddresseeName",
   "addressee_name", "ContactName", "contact_name", "TelephoneNumber",
   "telephone_number", "EmailAddress", "email_address"]

/-- `Addressee` construction. -/
def validateAddressee (input : Val) : Except String Addressee :=
  match input with
  | .obj raw =>
      let kvs := normalizeKVs raw
      if !(kvs.filter (fun p => !(addresseeKeys.contains p.1))).isEmpty then
        .error "Extra inputs are not permitted"
      else do
        let ids ← listField kvs "AddresseeIdentifier" "addressee_identifiers"
          validateAddresseeIdentifier
        let nm ← optStr kvs "AddresseeName" "addressee_name"
        let cn ← optStr kvs "ContactName" "contact_name"
        let tel ← optStr kvs "TelephoneNumber" "telephone_number"
        let em ← optStr kvs "EmailAddress" "email_address"
        .ok { addressee_identifiers := ids, addressee_name := nm,
              contact_name := cn, telephone_number := tel, email_address := em }
  | _ => .error "ONIXModel expects a dict input"

/-! ## datetime.strptime, as used by `Header.validate_sent_date_time`

The source strips trailing Z characters with `v.rstrip("Z")` and then
tries `datetime.strptime` with the formats `%Y%m%d`, `%Y%m%dT%H%M` and
`%Y%m%dT%H%M%S` in that order.  CPython compiles those formats to the
regular expression fragments (d standing for a digit class, and the %d
pattern ending in a space-then-nonzero-digit alternative)

  %Y = dddd   %m = 1[0-2]|0[1-9]|[1-9]
  %d = 3[0-1]|[1-2]d|0[1-9]|[1-9]| [1-9]
  %H = 2[0-3]|[0-1]d|d   %M = [0-5]d|d   %S = 6[0-1]|[0-5]d|d

compiled with IGNORECASE (so the literal T of the format also matches a
lowercase t), matches the concatenation at the start of the string
(taking the first match in backtracking order, alternatives tried left
to right), raises if characters remain unconsumed, and finally builds a
`datetime`, which raises when the year is 0 or the day exceeds the month
length or the second exceeds 59.  `dfsRun` reproduces the backtracking
search, fuelled by the token count (each recursion step consumes one
token). -/

/-- Numeric value of a digit character. -/
def digitVal (c : Char) : Nat := c.toNat - '0'.toNat

/-- Tokens of the three formats. -/
inductive FTok where
  | year | month | day | hour | minute | second
  | lit (c : Char)
  deriving DecidableEq, Repr

/-- Ordered alternatives of a token at the head of the input: each entry
is the captured number (none for a literal) and the remaining input,
listed in the order the CPython regex tries them. -/
def tokAlts : FTok → List Char → List (Option Nat × List Char)
  | .year, c1 :: c2 :: c3 :: c4 :: rest =>
      if c1.isDigit && c2.isDigit && c3.isDigit && c4.isDigit then
        [(some (digitVal c1 * 1000 + digitVal c2 * 100 + digitVal c3 * 10 +
            digitVal c4), rest)]
      else []
  | .year, _ => []
  | .month, a :: c :: rest =>
      (if a == '1' && c.isDigit && digitVal c ≤ 2 then
        [(some (10 + digitVal c), rest)] else []) ++
      (if a == '0' && c.isDigit && 1 ≤ digitVal c then
        [(some (digitVal c), rest)] else []) ++
      (if a.isDigit && 1 ≤ digitVal a then [(some (digitVal a), c :: rest)] else [])
  | .month, [a] =>
      if a.isDigit && 1 ≤ digitVal a then [(some (digitVal a), [])] else []
  | .month, [] => []
  | .day, a :: c :: rest =>
      (if a == '3' && c.isDigit && digitVal c ≤ 1 then
        [(some (30 + digitVal c), rest)] else []) ++
      (if (a == '1' || a == '2') && c.isDigit then
        [(some (10 * digitVal a + digitVal c), rest)] else []) ++
      (if a == '0' && c.isDigit && 1 ≤ digitVal c then
        [(some (digitVal c), rest)] else []) ++
      (if a.isDigit && 1 ≤ digitVal a then
        [(some (digitVal a), c :: rest)] else []) ++
      (if a == ' ' && c.isDigit && 1 ≤ digitVal c then
        [(some (digitVal c), rest)] else [])
  | .day, [a] =>
      if a.isDigit && 1 ≤ digitVal a then [(some (digitVal a), [])] else []
  | .day, [] => []
  | .hour, a :: c :: rest =>
      (if a == '2' && c.isDigit && digitVal c ≤ 3 then
        [(some (20 + digitVal c), rest)] else []) ++
      (if (a == '0' || a == '1') && c.isDigit then
        [(some (10 * digitVal a + digitVal c), rest)] else []) ++
      (if a.isDigit then [(some (digitVal a), c :: rest)] else [])
  | .hour, [a] => if a.isDigit then [(some (digitVal a), [])] else []
  | .hour, [] => []
  | .minute, a :: c :: rest =>
      (if a.isDigit && digitVal a ≤ 5 && c.isDigit then
        [(some (10 * digitVal a + digitVal c), rest)] else []) ++
      (if a.isDigit then [(some (digitVal a), c :: rest)] else [])
  | .minute, [a] => if a.isDigit then [(some (digitVal a), [])] else []
  | .minute, [] => []
  | .second, a :: c :: rest =>
      (if a == '6' && c.isDigit && digitVal c ≤ 1 then
        [(some (60 + digitVal c), rest)] else []) ++
      (if a.isDigit && digitVal a ≤ 5 && c.isDigit then
        [(some (10 * digitVal a + digitVal c), rest)] else []) ++
      (if a.isDigit then [(some (digitVal a), c :: rest)] else [])
  | .second, [a] => if a.isDigit then [(some (digitVal a), [])] else []
  | .second, [] => []
  | .lit ch, c :: rest =>
      if c.toLower == ch.toLower then [(none, rest)] else []
  | .lit _, [] => []

/-- First match of the token sequence at the head of the input, in
backtracking order (alternatives of each token tried left to right, the
first assignment matching every token wins): the captured numbers and
the unconsumed remainder.  The fuel argument only drives the recursion;
one unit is spent per token, so any fuel beyond the token count is
enough. -/
def dfsRun : Nat → List FTok → List Char → Option (List Nat × List Char)
  | _, [], cs => some ([], cs)
  | 0, _ :: _, _ => none
  | fuel + 1, t :: ts, cs =>
      (tokAlts t cs).findSome? (fun alt =>
        (dfsRun fuel ts alt.2).map (fun r =>
          (match alt.1 with
           | some n => n :: r.1
           | none => r.1, r.2)))

/-- The `%Y%m%d` token sequence. -/
def fmtDate : List FTok := [.year, .month, .day]

/-- The `%Y%m%dT%H%M` token sequence. -/
def fmtMinute : List FTok := fmtDate ++ [.lit 'T', .hour, .minute]

/-- The `%Y%m%dT%H%M%S` token sequence. -/
def fmtSecond : List FTok := fmtMinute ++ [.second]

/-- Gregorian leap year. -/
def isLeapYear (y : Nat) : Bool :=
  y % 4 == 0 && (y % 100 != 0 || y % 400 == 0)

/-- Length of a month. -/
def daysInMonth (y m : Nat) : Nat :=
  if m == 2 then (if isLeapYear y then 29 else 28)
  else if m == 4 || m == 6 || m == 9 || m == 11 then 30
  else 31

/-- The checks `datetime(...)` adds on top of the regex: the year is at
least 1, the day fits the month, and the second (whose regex also admits
the leap-second values 60 and 61) is at most 59. -/
def capsValid : List Nat → Bool
  | [y, m, d] => 1 ≤ y && d ≤ daysInMonth y m
  | [y, m, d, _, _] => 1 ≤ y && d ≤ daysInMonth y m
  | [y, m, d, _, _, se] => 1 ≤ y && d ≤ daysInMonth y m && se ≤ 59
  | _ => false

/-- `datetime.strptime(v, fmt)` succeeds. -/
def strptimeOk (toks : List FTok) (v : String) : Bool :=
  match dfsRun (toks.length + 1) toks v.toList with
  | some (caps, leftover) => leftover.isEmpty && capsValid caps
  | none => false

/-- `v.rstrip("Z")`. -/
def rstripZ (v : String) : String :=
  String.mk ((v.toList.reverse.dropWhile (fun c => c == 'Z')).reverse)

/-- The acceptance condition `Header.validate_sent_date_time`
implements: strip every trailing Z, then try the three strptime formats
in order. -/
def sentDateTimeAccepted (v : String) : Bool :=
  strptimeOk fmtDate (rstripZ v) || strptimeOk fmtMinute (rstripZ v) ||
    strptimeOk fmtSecond (rstripZ v)

/-- `Header.validate_sent_date_time`. -/
def validateSentDateTimeStr (v : String) : Except String String :=
  if sentDateTimeAccepted v then
    .ok v
  else
    .error "Invalid SentDateTime format: expected one of YYYYMMDD, YYYYMMDDThhmmZ, YYYYMMDDThhmmssZ, YYYYMMDDThhmm or YYYYMMDDThhmmss"

/-! ## The `Header` model of src/src/onix/header/header.py -/

/-- `Header` model (the composite one of header/header.py, with sender,
addressees and the message metadata fields). -/
structure HeaderR where
  sender : Sender
  addressees : List Addressee
  message_number : Option String
  message_repeat : Option String
  sent_date_time : String
  message_note : Option String
  default_language_of_text : Option String
  default_price_type : Option String
  default_currency_code : Option String
  deriving DecidableEq, Repr

/-- The keys `Header` accepts. -/
def headerRKeys : List String :=
  ["Sender", "sender", "Addressee", "addressees", "MessageNumber",
   "message_number", "MessageRepeat", "message_repeat", "SentDateTime",
   "sent_date_time", "MessageNote", "message_note", "DefaultLanguageOfText",
   "default_language_of_text", "DefaultPriceType", "default_price_type",
   "DefaultCurrencyCode", "default_currency_code"]

/-- `Header.validate_message_number`: numeric string of at most 8
digits. -/
def validateMessageNumberStr (v : Option String) :
    Except String (Option String) :=
  match v with
  | none => .ok none
  | some v =>
      if !pyIsDigit v || v.length > 8 then
        .error "Invalid MessageNumber: must be numeric string up to 8 digits"
      else .ok (some v)

/-- `Header.validate_message_repeat`: numeric string of at most 4
digits. -/
def validateMessageRepeatStr (v : Option String) :
    Except String (Option String) :=
  match v with
  | none => .ok none
  | some v =>
      if !pyIsDigit v || v.length > 4 then
        .error "Invalid MessageRepeat: must be numeric string up to 4 digits"
      else .ok (some v)

/-- `Header.validate_default_language`: List 74 membership via
`get_code`. -/
def validateDefaultLanguageStr (v : Option String) :
    Except String (Option String) :=
  match v with
  | none => .ok none
  | some v =>
      if (getCode 74 v).isNone then
        .error ("Invalid DefaultLanguageOfText: " ++ v ++
          " is not a valid List 74 code")
      else .ok (some v)

/-- `Header.validate_default_price_type`: List 58 membership. -/
def validateDefaultPriceTypeStr (v : Option String) :
    Except String (Option String) :=
  match v with
  | none => .ok none
  | some v =>
      if (getCode 58 v).isNone then
        .error ("Invalid DefaultPriceType: " ++ v ++
          " is not a valid List 58 code")
      else .ok (some v)

/-- `Header.validate_default_currency`: List 96 membership. -/
def validateDefaultCurrencyStr (v : Option String) :
    Except String (Option String) :=
  match v with
  | none => .ok none
  | some v =>
      if (getCode 96 v).isNone then
        .error ("Invalid DefaultCurrencyCode: " ++ v ++
          " is not a valid List 96 code")
      else .ok (some v)

/-- The required Sender field of `Header`. -/
def senderField (kvs : List (String × Val)) : Except String Sender :=
  match fieldVal kvs "Sender" "sender" with
  | none => .error "Sender: Field required"
  | some v => validateSender v

/-- Field validation of `Header`, in field definition order, running each
field validator of the source. -/
def buildHeaderR (kvs : List (String × Val)) : Except String HeaderR := do
  let snd ← senderField kvs
  let ads ← listField kvs "Addressee" "addressees" validateAddressee
  let mn ← optStr kvs "MessageNumber" "message_number"
  let mn ← validateMessageNumberStr mn
  let mr ← optStr kvs "MessageRepeat" "message_repeat"
  let mr ← validateMessageRepeatStr mr
  let sdt ← reqStr kvs "SentDateTime" "sent_date_time"
  let sdt ← validateSentDateTimeStr sdt
  let note ← optStr kvs "MessageNote" "message_note"
  let lang ← optStr kvs "DefaultLanguageOfText" "default_language_of_text"
  let lang ← validateDefaultLanguageStr lang
  let pt ← optStr kvs "DefaultPriceType" "default_price_type"
  let pt ← validateDefaultPriceTypeStr pt
  let cur ← optStr kvs "DefaultCurrencyCode" "default_currency_code"
  let cur ← validateDefaultCurrencyStr cur
  .ok { sender := snd, addressees := ads, message_number := mn,
        message_repeat := mr, sent_date_time := sdt, message_note := note,
        default_language_of_text := lang, default_price_type := pt,
        default_currency_code := cur }

/-- `Header` construction (header/header.py). -/
def validateHeaderR (input : Val) : Except String HeaderR :=
  match input with
  | .obj raw =>
      let kvs := normalizeKVs raw
      if !(kvs.filter (fun p => !(headerRKeys.contains p.1))).isEmpty then
        .error "Extra inputs are not permitted"
      else buildHeaderR kvs
  | _ => .error "ONIXModel expects a dict input"

/-! ## src/src/onix/product/b1/p3/EpubLicenseExpression.py -/

/-- `EpubLicenseExpression` model. -/
structure EpubLicenseExpression where
  epub_license_expression_type : String
  epub_license_expression_type_name : Option String
  epub_license_expression_link : String
  deriving DecidableEq, Repr

/-- The keys `EpubLicenseExpression` accepts. -/
def epubLicenseExpressionKeys : List String :=
  ["EpubLicenseExpressionType", "epub_license_expression_type",
   "EpubLicenseExpressionTypeName", "epub_license_expression_type_name",
   "EpubLicenseExpressionLink", "epub_license_expression_link"]

/-- The pydantic `max_length` constraint on an optional string. -/
def maxLenOpt (n : Nat) (k : String) (v : Option String) :
    Except String (Option String) :=
  match v with
  | some v =>
      if v.length > n then
        .error (k ++ ": String should have at most " ++ toString n ++ " characters")
      else .ok (some v)
  | none => .ok none

/-- The `_validate_epub_license_expression_type` field validator: two
digits, then List 218 membership via `get_code` (`get_code(218, _)` is
always `None` because only List 44 is registered). -/
def epubTypeCheck (t : String) : Except String String :=
  if !pyIsDigit t || t.length != 2 then
    .error ("Invalid epub_license_expression_type " ++ t ++
      " - must be exactly 2 digits")
  else if (getCode 218 t).isNone then
    .error ("Invalid epub_license_expression_type " ++ t ++
      " - must be from List 218")
  else .ok t

/-- Field validation of `EpubLicenseExpression`: the type check above,
the name limited to 50 characters and the link to 300. -/
def buildEpubLicenseExpression (kvs : List (String × Val)) :
    Except String EpubLicenseExpression := do
  let t ← reqStr kvs "EpubLicenseExpressionType" "epub_license_expression_type"
  let t ← epubTypeCheck t
  let tn ← optStr kvs "EpubLicenseExpressionTypeName"
    "epub_license_expression_type_name"
  let tn ← maxLenOpt 50 "EpubLicenseExpressionTypeName" tn
  let lk ← reqStr kvs "EpubLicenseExpressionLink" "epub_license_expression_link"
  let lk ← maxLenStr 300 "EpubLicenseExpressionLink" lk
  .ok { epub_license_expression_type := t,
        epub_license_expression_type_name := tn,
        epub_license_expression_link := lk }

/-- `EpubLicenseExpression` construction, including the proprietary
after-validator. -/
def validateEpubLicenseExpression (input : Val) :
    Except String EpubLicenseExpression :=
  match input with
  | .obj raw =>
      let kvs := normalizeKVs raw
      if !(kvs.filter (fun p => !(epubLicenseExpressionKeys.contains p.1))).isEmpty then
        .error "Extra inputs are not permitted"
      else
        match buildEpubLicenseExpression kvs with
        | .error e => .error e
        | .ok m =>
            if proprietaryViolation m.epub_license_expression_type
                m.epub_license_expression_type_name then
              .error "IDTypeName is required for proprietary EpubLicenseExpressionType 01"
            else .ok m
  | _ => .error "ONIXModel expects a dict input"

/-! ## src/src/onix/message.py

`ONIXAttributes` (and its empty subclasses `Header` and `Product` used by
`ONIXMessage`) derive from plain pydantic `BaseModel` with
`extra="allow"`: they do NOT inherit the empty-string normalization or
the closed-schema configuration of `ONIXModel`, and unknown keys are
stored as extra attributes.  `ONIXMessage` extends `ONIXAttributes` with
release, header, products and no_product, plus the mutual-exclusion
after-validator. -/

/-- `ONIXAttributes` (also the placeholder `Header` and `Product` of
message.py, which add no fields): the three optional attribute strings
plus the stored extra attributes. -/
structure ONIXAttributes where
  datestamp : Option String
  sourcename : Option String
  sourcetype : Option String
  extra : List (String × Val)
  deriving Repr

/-- The shared attribute keys. -/
def attrKeys : List String := ["datestamp", "sourcename", "sourcetype"]

/-- Optional `str` field looked up by its single name (the message-family
models declare no aliases). -/
def optStrPlain (kvs : List (String × Val)) (k : String) :
    Except String (Option String) :=
  match kvs.lookup k with
  | none => .ok none
  | some .null => .ok none
  | some (.s v) => .ok (some v)
  | some _ => .error (k ++ ": Input should be a valid string")

/-- `ONIXAttributes` construction: no normalization, unknown keys kept as
extras. -/
def validateONIXAttributes (input : Val) : Except String ONIXAttributes :=
  match input with
  | .obj kvs => do
      let ds ← optStrPlain kvs "datestamp"
      let sn ← optStrPlain kvs "sourcename"
      let st ← optStrPlain kvs "sourcetype"
      .ok { datestamp := ds, sourcename := sn, sourcetype := st,
            extra := kvs.filter (fun p => !(attrKeys.contains p.1)) }
  | _ => .error "Input should be a valid dictionary"

/-- `ONIXMessage`. -/
structure ONIXMessageM where
  datestamp : Option String
  sourcename : Option String
  sourcetype : Option String
  release : String
  header : ONIXAttributes
  products : List ONIXAttributes
  no_product : Bool
  extra : List (String × Val)
  deriving Repr

/-- The declared keys of `ONIXMessage`. -/
def messageKeys : List String :=
  ["datestamp", "sourcename", "sourcetype", "release", "header",
   "products", "no_product"]

/-- pydantic lax conversion to `bool` (accepts booleans and the usual
true/false strings; everything else, dicts in particular, is an error). -/
def boolFromVal (k : String) : Val → Except String Bool
  | .b v => .ok v
  | .s v =>
      let lv := v.toLower
      if lv == "true" || lv == "t" || lv == "yes" || lv == "y" ||
          lv == "on" || lv == "1" then .ok true
      else if lv == "false" || lv == "f" || lv == "no" || lv == "n" ||
          lv == "off" || lv == "0" then .ok false
      else .error (k ++ ": Input should be a valid boolean")
  | _ => .error (k ++ ": Input should be a valid boolean")

/-- The release field of `ONIXMessage`: a string defaulting to "3.1". -/
def releaseField (kvs : List (String × Val)) : Except String String :=
  match kvs.lookup "release" with
  | none => .ok "3.1"
  | some (.s v) => .ok v
  | some _ => .error "release: Input should be a valid string"

/-- The required header field of `ONIXMessage`. -/
def headerField (kvs : List (String × Val)) : Except String ONIXAttributes :=
  match kvs.lookup "header" with
  | none => .error "header: Field required"
  | some v => validateONIXAttributes v

/-- The products field of `ONIXMessage` (defaults to the empty list). -/
def productsField (kvs : List (String × Val)) :
    Except String (List ONIXAttributes) :=
  match kvs.lookup "products" with
  | none => .ok []
  | some (.arr vs) => validateList validateONIXAttributes vs
  | some _ => .error "products: Input should be a valid list"

/-- The no_product field of `ONIXMessage` (defaults to False). -/
def noProductField (kvs : List (String × Val)) : Except String Bool :=
  match kvs.lookup "no_product" with
  | none => .ok false
  | some v => boolFromVal "no_product" v

/-- Field validation of `ONIXMessage` (before the after-validator):
release defaults to "3.1", header is required, products defaults to the
empty list, no_product defaults to False, unknown keys become extras. -/
def buildONIXMessage (kvs : List (String × Val)) :
    Except String ONIXMessageM := do
  let ds ← optStrPlain kvs "datestamp"
  let sn ← optStrPlain kvs "sourcename"
  let st ← optStrPlain kvs "sourcetype"
  let rel ← releaseField kvs
  let hd ← headerField kvs
  let ps ← productsField kvs
  let np ← noProductField kvs
  .ok { datestamp := ds, sourcename := sn, sourcetype := st, release := rel,
        header := hd, products := ps, no_product := np,
        extra := kvs.filter (fun p => !(messageKeys.contains p.1)) }

/-- `ONIXMessage` construction, including the
`_validate_products_no_product` after-validator: products together with
no_product=True is an error, and an empty product list forces
no_product=True. -/
def validateONIXMessage (input : Val) : Except String ONIXMessageM :=
  match input with
  | .obj kvs =>
      match buildONIXMessage kvs with
      | .error e => .error e
      | .ok m =>
          if !m.products.isEmpty && m.no_product then
            .error "Cannot have both products and no_product=True. Either provide products or set no_product=True, not both."
          else if m.products.isEmpty then
            .ok { m with no_product := true }
          else .ok m
  | _ => .error "Input should be a valid dictionary"

/-! ## model_dump(exclude_none=True, exclude_defaults=True)

Used by `message_to_xml` and `message_to_dict`.  Fields equal to their
defaults (release "3.1", products [], no_product False, the three
attributes None) are omitted; None values (including None extras) are
omitted; keys appear in pydantic field order (inherited attributes first)
with extras at the end. -/

/-- Dump entry of an optional string field whose default is None. -/
def optEntry (k : String) (v : Option String) : List (String × Val) :=
  match v with
  | none => []
  | some v => [(k, .s v)]

/-- `model_dump` of an `ONIXAttributes` value, as the entry list of the
resulting dict. -/
def dumpONIXAttributesKVs (a : ONIXAttributes) : List (String × Val) :=
  optEntry "datestamp" a.datestamp ++ optEntry "sourcename" a.sourcename ++
  optEntry "sourcetype" a.sourcetype ++
  a.extra.filter (fun p => !valIsNull p.2)

/-- Dump of each product in order. -/
def dumpProducts : List ONIXAttributes → List Val
  | [] => []
  | p :: rest => .obj (dumpONIXAttributesKVs p) :: dumpProducts rest

/-- `model_dump` of an `ONIXMessage`, as the entry list of the resulting
dict. -/
def dumpONIXMessageKVs (m : ONIXMessageM) : List (String × Val) :=
  optEntry "datestamp" m.datestamp ++ optEntry "sourcename" m.sourcename ++
  optEntry "sourcetype" m.sourcetype ++
  (if m.release == "3.1" then [] else [("release", .s m.release)]) ++
  [("header", .obj (dumpONIXAttributesKVs m.header))] ++
  (if m.products.isEmpty then [] else [("products", .arr (dumpProducts m.products))]) ++
  (if m.no_product then [("no_product", .b true)] else []) ++
  m.extra.filter (fun p => !valIsNull p.2)

/-! ## src/src/onix/parsers/xml.py

XML elements are modelled structurally (`message_to_xml` returns an
element and `xml_to_message` accepts one, so the round trip of claim C1
is already meaningful at the element level; lxml and the stdlib build the
same structure).  `Element.set` replaces an existing attribute or appends
a new one. -/

/-- An XML element. -/
structure Elem where
  tag : String
  attrib : List (String × String)
  children : List Elem
  text : Option String
  deriving Repr

/-- A fresh element with the given tag. -/
def elemMk (tag : String) : Elem :=
  { tag := tag, attrib := [], children := [], text := none }

/-- A leaf element carrying text. -/
def leafElem (tag txt : String) : Elem :=
  { tag := tag, attrib := [], children := [], text := some txt }

/-- `Element.set`. -/
def upsertStr : List (String × String) → String → String →
    List (String × String)
  | [], k, v => [(k, v)]
  | (k0, v0) :: rest, k, v =>
      if k0 == k then (k0, v) :: rest else (k0, v0) :: upsertStr rest k v

/-- `Element.set` on an element. -/
def setAttr (e : Elem) (k v : String) : Elem :=
  { e with attrib := upsertStr e.attrib k v }

/-- The attribute-setting loop of `_dict_to_element`: datestamp,
sourcename, sourcetype in that order, stringified. -/
def xmlAttrsOf (data : List (String × Val)) : List (String × String) :=
  (match data.lookup "datestamp" with
   | some v => [("datestamp", pyStr v)]
   | none => []) ++
  (match data.lookup "sourcename" with
   | some v => [("sourcename", pyStr v)]
   | none => []) ++
  (match data.lookup "sourcetype" with
   | some v => [("sourcetype", pyStr v)]
   | none => [])

mutual

/-- The child-building loop of `_dict_to_element` (attribute keys are
skipped; the remaining entries yield child elements in order). -/
def childElems : List (String × Val) → Bool → List Elem
  | [], _ => []
  | (k, v) :: rest, sn =>
      (if attrKeys.contains k then [] else childOf k v sn) ++
        childElems rest sn

/-- One entry of the dict: a nested dict becomes a nested
`_dict_to_element` element, a list emits one element per item under the
same tag, anything else becomes a text leaf. -/
def childOf (k : String) (v : Val) (sn : Bool) : List Elem :=
  let refTag := fieldNameToTag k
  let childTag := if sn then toShortTag refTag else refTag
  match v with
  | .obj kvs =>
      [{ tag := childTag, attrib := xmlAttrsOf kvs,
         children := childElems kvs sn, text := none }]
  | .arr items => arrElems childTag items sn
  | other => [leafElem childTag (pyStr other)]

/-- The list case of `_dict_to_element`: dict items recurse, other items
become text leaves. -/
def arrElems (childTag : String) : List Val → Bool → List Elem
  | [], _ => []
  | it :: rest, sn =>
      (match it with
       | .obj kvs =>
           ({ tag := childTag, attrib := xmlAttrsOf kvs,
              children := childElems kvs sn, text := none } : Elem)
       | other => leafElem childTag (pyStr other)) :: arrElems childTag rest sn

end

/-- `_dict_to_element`: attributes from the shared attribute keys,
children from the remaining entries in order. -/
def dictToElement (tag : String) (data : List (String × Val))
    (shortNames : Bool) : Elem :=
  { tag := tag, attrib := xmlAttrsOf data,
    children := childElems data shortNames, text := none }

/-- `message_to_xml`: dump the message, build the namespace-free root
with its release attribute and shared attributes, then the header element
followed by either the NoProduct marker or one element per product. -/
def messageToXml (m : ONIXMessageM) (shortNames : Bool) : Elem :=
  let data := dumpONIXMessageKVs m
  let rootTag := if shortNames then toShortTag "ONIXMessage" else "ONIXMessage"
  let root := elemMk rootTag
  let root := setAttr root "release"
    (match data.lookup "release" with
     | some v => pyStr v
     | none => "3.1")
  let root := (match data.lookup "datestamp" with
    | some v => setAttr root "datestamp" (pyStr v)
    | none => root)
  let root := (match data.lookup "sourcename" with
    | some v => setAttr root "sourcename" (pyStr v)
    | none => root)
  let root := (match data.lookup "sourcetype" with
    | some v => setAttr root "sourcetype" (pyStr v)
    | none => root)
  let headerTag := if shortNames then toShortTag "Header" else "Header"
  let headerData := match data.lookup "header" with
    | some (.obj kvs) => kvs
    | _ => []
  let headerElem := dictToElement headerTag headerData shortNames
  let tailElems :=
    if pyTruthy (data.lookup "no_product") then
      [elemMk (if shortNames then toShortTag "NoProduct" else "NoProduct")]
    else
      let productTag := if shortNames then toShortTag "Product" else "Product"
      match data.lookup "products" with
      | some (.arr items) => arrElems productTag items shortNames
      | _ => []
  { root with children := headerElem :: tailElems }

/-- The keys `_element_to_dict` treats as known complex elements. -/
def complexKeys : List String :=
  ["header", "products", "no_product", "sender", "sender_identifiers",
   "addressees", "addressee_identifiers"]

/-- The keys `_element_to_dict` always keeps as lists. -/
def listFieldKeys : List String :=
  ["products", "sender_identifiers", "addressees", "addressee_identifiers"]

/-- The attribute pass of `_element_to_dict`: release and the shared
attribute keys are kept, anything else dropped. -/
def elemAttrEntries : List (String × String) → List (String × Val)
  | [] => []
  | (k, v) :: rest =>
      (if k == "release" || attrKeys.contains k then [(k, .s v)] else []) ++
        elemAttrEntries rest

/-- Appending one child value to the per-key groups, preserving first
occurrence order (the Python side uses a dict of lists). -/
def groupInsert (acc : List (String × List Val)) (k : String) (v : Val) :
    List (String × List Val) :=
  match acc with
  | [] => [(k, [v])]
  | (k0, vs) :: rest =>
      if k0 == k then (k0, vs ++ [v]) :: rest
      else (k0, vs) :: groupInsert rest k v

/-- Flattening the groups: registered list fields and repeated tags stay
lists, a single occurrence of anything else is unwrapped. -/
def flattenGroups : List (String × List Val) → List (String × Val)
  | [] => []
  | (k, vs) :: rest =>
      (if listFieldKeys.contains k || vs.length > 1 then (k, .arr vs)
       else
         match vs with
         | [v] => (k, v)
         | _ => (k, .arr vs)) :: flattenGroups rest

/-- The per-key child grouping of `_element_to_dict` (a dict of lists on
the Python side). -/
def groupChildren (pairs : List (String × Val)) : List (String × List Val) :=
  pairs.foldl (fun acc p => groupInsert acc p.1 p.2) []

mutual

/-- `_element_to_dict`: attributes first, then the grouped and flattened
children. -/
def elementToDict : Elem → Bool → List (String × Val)
  | ⟨_, attr, ch, _⟩, nt =>
      elemAttrEntries attr ++ flattenGroups (groupChildren (childPairs ch nt))

/-- The child loop of `_element_to_dict`.  Each child tag goes through
`to_reference_tag` when `normalizeTags` is set and is then resolved to a
field name; a childless attribute-less child of a non-complex key
becomes its text (or the empty string), and everything else recurses
into the nested `_element_to_dict`. -/
def childPairs : List Elem → Bool → List (String × Val)
  | [], _ => []
  | c :: rest, nt =>
      let ctag := if nt then toReferenceTag c.tag else c.tag
      let ckey := tagToFieldName ctag
      let v : Val :=
        if c.children.isEmpty && c.attrib.isEmpty &&
            !(complexKeys.contains ckey) then
          .s (c.text.getD "")
        else
          .obj (elementToDict c nt)
      (ckey, v) :: childPairs rest nt

end

/-- `xml_to_message` on an element source: convert to a dict with
`normalize_tags = not short_names` (as the source does) and validate. -/
def xmlToMessage (root : Elem) (shortNames : Bool) :
    Except String ONIXMessageM :=
  validateONIXMessage (.obj (elementToDict root (!shortNames)))

/-! ## Concrete entities and documents used by the claims -/

/-- An `ONIXAttributes` record with nothing set (what `Header()` and
`Product()` of message.py construct). -/
def emptyAttrs : ONIXAttributes :=
  { datestamp := none, sourcename := none, sourcetype := none, extra := [] }

/-- A validly constructed message with a header and no products (its
after-validator sets no_product to True). -/
def msgNoProducts : ONIXMessageM :=
  { datestamp := none, sourcename := none, sourcetype := none,
    release := "3.1", header := emptyAttrs, products := [],
    no_product := true, extra := [] }

/-- A validly constructed message with a header and one (empty) product
record. -/
def msgOneProduct : ONIXMessageM :=
  { datestamp := none, sourcename := none, sourcetype := none,
    release := "3.1", header := emptyAttrs, products := [emptyAttrs],
    no_product := false, extra := [] }

/-- What the short-tag XML round trip of `msgOneProduct` actually
re-parses to: the product element survives only as an extra field named
"product" holding an empty string, and no_product flips to true. -/
def msgShortReparsed : ONIXMessageM :=
  { datestamp := none, sourcename := none, sourcetype := none,
    release := "3.1", header := emptyAttrs, products := [],
    no_product := true, extra := [("product", Val.s "")] }

/-- Input constructing `msgNoProducts`. -/
def inputNoProducts : Val := Val.obj [("header", Val.obj [])]

/-- Input constructing `msgOneProduct`. -/
def inputOneProduct : Val :=
  Val.obj [("header", Val.obj []), ("products", Val.arr [Val.obj []])]

/-- A message input with an unknown top-level field. -/
def inputBogusField : Val :=
  Val.obj [("header", Val.obj []), ("bogus_field", Val.s "x")]

/-- What `inputBogusField` constructs: the unknown field is stored. -/
def msgWithBogus : ONIXMessageM :=
  { datestamp := none, sourcename := none, sourcetype := none,
    release := "3.1", header := emptyAttrs, products := [],
    no_product := true, extra := [("bogus_field", Val.s "x")] }

/-- The constructor call from the `EpubLicenseExpression` docstring
example. -/
def epubDocstringInput : Val :=
  Val.obj [("EpubLicenseExpressionType", Val.s "10"),
           ("EpubLicenseExpressionLink", Val.s "http://example.com/license.xml")]

/-- The header construction of the repository test suite:
`make_header(default_language_of_text="eng")`. -/
def headerEngInput : Val :=
  Val.obj [("Sender", Val.obj [("SenderName", Val.s "Test Publisher")]),
           ("SentDateTime", Val.s "20231201T120000Z"),
           ("DefaultLanguageOfText", Val.s "eng")]

/-- The sender constructed from a name alone (used to witness the
universal claims). -/
def senderX : Sender :=
  { sender_identifiers := [], sender_name := some "X", contact_name := none,
    telephone_number := none, email_address := none }

/-- A fully empty addressee (every field optional). -/
def emptyAddressee : Addressee :=
  { addressee_identifiers := [], addressee_name := none, contact_name := none,
    telephone_number := none, email_address := none }

/-! ## Claim C4 -/

/-- C4: a string registered neither as a reference name nor as a short tag
passes through both `to_short_tag` and `to_reference_tag` unchanged
(in particular for "UnknownTag" and "unknowntag"), and every registered
reference name is restored by `to_reference_tag` after `to_short_tag`. -/
theorem c4_tag_passthrough_roundtrip :
    (∀ t : String, referenceToShort.lookup t = none →
        shortToReference.lookup t = none →
        toShortTag t = t ∧ toReferenceTag t = t) ∧
    (∀ p ∈ referenceToShort, toReferenceTag (toShortTag p.1) = p.1) ∧
    toShortTag "UnknownTag" = "UnknownTag" ∧
    toReferenceTag "unknowntag" = "unknowntag" := by
  refine ⟨?_, ?_, rfl, rfl⟩
  · intro t h1 h2
    constructor
    · unfold toShortTag
      rw [h1]
      rfl
    · unfold toReferenceTag
      rw [h2]
      rfl
  · intro p hp
    simp only [referenceToShort, List.mem_cons, List.not_mem_nil, or_false] at hp
    rcases hp with h | h | h | h <;> subst h <;> rfl

/-- C4 witness: the passthrough and round-trip facts at concrete inputs. -/
theorem c4_witness :
    (toShortTag "SenderName" = "SenderName" ∧
      toReferenceTag "SenderName" = "SenderName") ∧
    toReferenceTag (toShortTag "Header") = "Header" :=
  ⟨c4_tag_passthrough_roundtrip.1 "SenderName" (by decide) (by decide),
   c4_tag_passthrough_roundtrip.2.1 ("Header", "header") (by decide)⟩

/-! ## Helper lemmas -/

/-- Successful `Except` bind inverts into a successful first stage. -/
theorem exbind_ok {α β : Type} {e : Except String α}
    {f : α → Except String β} {m : β}
    (h : (e >>= f) = .ok m) : ∃ x, e = .ok x ∧ f x = .ok m := by
  cases e with
  | error err => exact absurd h (by simp [Bind.bind, Except.bind])
  | ok x => exact ⟨x, rfl, by simpa [Bind.bind, Except.bind] using h⟩

/-- `validateList` preserves length. -/
theorem validateList_ok_length {α : Type} {f : Val → Except String α} :
    ∀ {vs : List Val} {xs : List α},
      validateList f vs = .ok xs → xs.length = vs.length := by
  intro vs
  induction vs with
  | nil =>
      intro xs h
      unfold validateList at h
      cases h
      rfl
  | cons v rest ih =>
      intro xs h
      unfold validateList at h
      obtain ⟨x, _, h⟩ := exbind_ok h
      obtain ⟨ys, hys, h⟩ := exbind_ok h
      cases h
      simp [ih hys]

/-- Normalization keeps the keys of a dict. -/
theorem normalizeKVs_keys :
    ∀ kvs : List (String × Val),
      (normalizeKVs kvs).map Prod.fst = kvs.map Prod.fst
  | [] => rfl
  | (k, v) :: rest => by simp [normalizeKVs, normalizeKVs_keys rest]

/-- An empty filter means the predicate holds nowhere. -/
theorem filter_isEmpty_all {α : Type} (f : α → Bool) :
    ∀ l : List α, (l.filter f).isEmpty = true → ∀ a ∈ l, f a = false := by
  intro l
  induction l with
  | nil =>
      intro _ a ha
      cases ha
  | cons x rest ih =>
      intro h a ha
      rw [List.filter_cons] at h
      by_cases hx : f x = true
      · rw [if_pos hx] at h
        simp [List.isEmpty] at h
      · rw [if_neg hx] at h
        rcases List.mem_cons.mp ha with hxa | hmem
        · subst hxa
          exact Bool.not_eq_true _ ▸ (by simpa using hx)
        · exact ih h a hmem

/-- The strict extra-key check of the ONIXModel validators: when the
filter of unknown keys over the normalized entries is empty, every input
key is an accepted key. -/
theorem strictKeysOf {keys : List String} {kvs : List (String × Val)}
    (hemp : ((normalizeKVs kvs).filter
      (fun p => !(keys.contains p.1))).isEmpty = true) :
    ∀ p ∈ kvs, keys.contains p.1 = true := by
  intro p hp
  have hmap : p.1 ∈ (normalizeKVs kvs).map Prod.fst := by
    rw [normalizeKVs_keys]
    exact List.mem_map_of_mem Prod.fst hp
  obtain ⟨q, hq, hq1⟩ := List.mem_map.mp hmap
  have hqf := filter_isEmpty_all _ _ hemp q hq
  rw [hq1] at hqf
  simpa using hqf

/-- Inversion of the `ONIXMessage` field stage: the extras are exactly
the unknown keys, a products list keeps its length, and an explicit
boolean True no_product entry is stored as True. -/
theorem buildONIXMessage_ok_inv {kvs : List (String × Val)}
    {m0 : ONIXMessageM} (h : buildONIXMessage kvs = .ok m0) :
    m0.extra = kvs.filter (fun p => !(messageKeys.contains p.1)) ∧
    (∀ vs, kvs.lookup "products" = some (.arr vs) →
      m0.products.length = vs.length) ∧
    (kvs.lookup "no_product" = some (.b true) → m0.no_product = true) := by
  unfold buildONIXMessage at h
  obtain ⟨ds, _, h⟩ := exbind_ok h
  obtain ⟨sn, _, h⟩ := exbind_ok h
  obtain ⟨st, _, h⟩ := exbind_ok h
  obtain ⟨rel, _, h⟩ := exbind_ok h
  obtain ⟨hd, _, h⟩ := exbind_ok h
  obtain ⟨ps, hps, h⟩ := exbind_ok h
  obtain ⟨np, hnp, h⟩ := exbind_ok h
  cases h
  refine ⟨rfl, ?_, ?_⟩
  · intro vs hvs
    unfold productsField at hps
    rw [hvs] at hps
    exact validateList_ok_length hps
  · intro hl
    unfold noProductField at hnp
    rw [hl] at hnp
    simp only [boolFromVal] at hnp
    cases hnp
    rfl

/-- A successful `Sender` construction passed both the extra-key check
and the not-empty after-validator. -/
theorem validateSender_ok_inv {kvs : List (String × Val)} {m : Sender}
    (h : validateSender (Val.obj kvs) = .ok m) :
    ((normalizeKVs kvs).filter
      (fun p => !(senderKeys.contains p.1))).isEmpty = true ∧
    (pyFalsyStr m.sender_name && m.sender_identifiers.isEmpty) = false := by
  simp only [validateSender] at h
  by_cases hcond : (!((normalizeKVs kvs).filter
      (fun p => !(senderKeys.contains p.1))).isEmpty) = true
  · rw [if_pos hcond] at h
    exact absurd h (by simp)
  · rw [if_neg hcond] at h
    refine ⟨by simpa using hcond, ?_⟩
    cases hb : buildSender (normalizeKVs kvs) with
    | error e =>
        exact absurd h (by simp [hb])
    | ok m1 =>
        simp only [hb] at h
        by_cases hfal :
            (pyFalsyStr m1.sender_name && m1.sender_identifiers.isEmpty) = true
        · rw [if_pos hfal] at h
          exact absurd h (by simp)
        · rw [if_neg hfal] at h
          cases h
          simpa using hfal

/-! ## Claim C1 -/

/-- C1: the round-trip guarantee fails for the XML format.  A validly
constructed message with no products serializes to a NoProduct marker
element that re-parses into an empty mapping for the boolean no_product
field, so the reference-style XML round trip errors out; and in
short-tag style the parser never translates short tags back (it is
invoked with normalize_tags = not short_names), so the product element
of a one-product message survives only as an extra string field and the
round trip returns a different message. -/
theorem c1_xml_roundtrip_fails :
    validateONIXMessage inputNoProducts = .ok msgNoProducts ∧
    validateONIXMessage inputOneProduct = .ok msgOneProduct ∧
    xmlToMessage (messageToXml msgNoProducts false) false =
      .error "no_product: Input should be a valid boolean" ∧
    xmlToMessage (messageToXml msgOneProduct true) true =
      .ok msgShortReparsed ∧
    msgShortReparsed.products = [] ∧
    msgOneProduct.products = [emptyAttrs] ∧
    ([] : List ONIXAttributes) ≠ [emptyAttrs] :=
  ⟨rfl, rfl, rfl, rfl, rfl, rfl, by simp⟩

/-! ## Claim C2 -/

/-- C2: `message_to_xml` builds the root element from the bare tag name
("ONIXMessage" in reference style, "ONIXmessage" in short style) and
never assigns the ONIX namespace: the root carries only the release
attribute (defaulting to "3.1"), no xmlns entry and no namespace-expanded
tag. -/
theorem c2_xml_root_has_no_namespace :
    (messageToXml msgOneProduct false).tag = "ONIXMessage" ∧
    (messageToXml msgOneProduct true).tag = "ONIXmessage" ∧
    (messageToXml msgOneProduct false).attrib = [("release", "3.1")] ∧
    (messageToXml msgNoProducts false).attrib = [("release", "3.1")] :=
  ⟨rfl, rfl, rfl, rfl⟩

/-! ## Claim C3 -/

/-- C3 counterexample: a message input with an unrecognized field
constructs successfully, storing the field, because `ONIXMessage` (like
the message.py `Header` and `Product` placeholders) is configured with
extra="allow"; the claim says such construction must fail. -/
theorem c3_counterexample_extra_accepted :
    validateONIXMessage inputBogusField = .ok msgWithBogus ∧
    msgWithBogus.extra = [("bogus_field", Val.s "x")] :=
  ⟨rfl, rfl⟩

/-- C3 amended: unrecognized fields are rejected by the composites that
derive from `ONIXModel` (extra="forbid"): every key of a successfully
validated Sender, SenderIdentifier or Header input is a declared field
name or alias.  The message-level classes of message.py
(`ONIXMessage`, `ONIXAttributes` and its Header/Product placeholders)
are configured extra="allow" instead and store unknown fields. -/
theorem c3_amended_strict_only_for_onixmodel :
    (∀ kvs m, validateSender (Val.obj kvs) = .ok m →
      ∀ p ∈ kvs, senderKeys.contains p.1 = true) ∧
    (∀ kvs m, validateSenderIdentifier (Val.obj kvs) = .ok m →
      ∀ p ∈ kvs, senderIdentifierKeys.contains p.1 = true) ∧
    (∀ kvs m, validateHeaderR (Val.obj kvs) = .ok m →
      ∀ p ∈ kvs, headerRKeys.contains p.1 = true) ∧
    (∀ kvs m, validateONIXMessage (Val.obj kvs) = .ok m →
      m.extra = kvs.filter (fun p => !(messageKeys.contains p.1))) := by
  refine ⟨?_, ?_, ?_, ?_⟩
  · intro kvs m h
    exact strictKeysOf (validateSender_ok_inv h).1
  · intro kvs m h
    simp only [validateSenderIdentifier] at h
    by_cases hcond : (!((normalizeKVs kvs).filter
        (fun p => !(senderIdentifierKeys.contains p.1))).isEmpty) = true
    · rw [if_pos hcond] at h
      exact absurd h (by simp)
    · exact strictKeysOf (by simpa using hcond)
  · intro kvs m h
    simp only [validateHeaderR] at h
    by_cases hcond : (!((normalizeKVs kvs).filter
        (fun p => !(headerRKeys.contains p.1))).isEmpty) = true
    · rw [if_pos hcond] at h
      exact absurd h (by simp)
    · exact strictKeysOf (by simpa using hcond)
  · intro kvs m h
    simp only [validateONIXMessage] at h
    cases hb : buildONIXMessage kvs with
    | error e =>
        exact absurd h (by simp [hb])
    | ok m0 =>
        simp only [hb] at h
        have hextra := (buildONIXMessage_ok_inv hb).1
        by_cases hc1 : (!m0.products.isEmpty && m0.no_product) = true
        · rw [if_pos hc1] at h
          exact absurd h (by simp)
        · rw [if_neg hc1] at h
          by_cases hc2 : m0.products.isEmpty = true
          · rw [if_pos hc2] at h
            cases h
            exact hextra
          · rw [if_neg hc2] at h
            cases h
            exact hextra

/-- C3 witness: the strictness statement applied to a concrete valid
sender input. -/
theorem c3_witness :
    validateSender (Val.obj [("SenderName", Val.s "X")]) = .ok senderX ∧
    senderKeys.contains "SenderName" = true :=
  ⟨rfl, c3_amended_strict_only_for_onixmodel.1 [("SenderName", Val.s "X")]
    senderX rfl ("SenderName", Val.s "X") (by simp)⟩

/-! ## Claim C5 -/

/-- C5: constructing a message with a non-empty products list and
no_product=True fails; constructing with an empty products list (and no
explicit flag) succeeds with no_product=True; and every successfully
constructed message satisfies products non-empty iff no_product is
False. -/
theorem c5_products_no_product_exclusion :
    (∀ kvs vs m, kvs.lookup "products" = some (Val.arr vs) → vs ≠ [] →
      kvs.lookup "no_product" = some (Val.b true) →
      validateONIXMessage (Val.obj kvs) ≠ .ok m) ∧
    (∀ hv hm, validateONIXAttributes hv = .ok hm →
      validateONIXMessage (Val.obj [("header", hv), ("products", Val.arr [])]) =
        .ok { datestamp := none, sourcename := none, sourcetype := none,
              release := "3.1", header := hm, products := [],
              no_product := true, extra := [] }) ∧
    (∀ v m, validateONIXMessage v = .ok m →
      (m.products ≠ [] ↔ m.no_product = false)) := by
  refine ⟨?_, ?_, ?_⟩
  · intro kvs vs m hp hne hnp h
    simp only [validateONIXMessage] at h
    cases hb : buildONIXMessage kvs with
    | error e => simp [hb] at h
    | ok m0 =>
        simp only [hb] at h
        obtain ⟨-, hlen, hnpt⟩ := buildONIXMessage_ok_inv hb
        have hlen2 := hlen vs hp
        have hnpt2 := hnpt hnp
        have hprodNe : m0.products ≠ [] := by
          intro he
          rw [he] at hlen2
          exact hne (List.eq_nil_of_length_eq_zero hlen2.symm)
        have hcond : (!m0.products.isEmpty && m0.no_product) = true := by
          rw [hnpt2]
          cases hq : m0.products with
          | nil => exact absurd hq hprodNe
          | cons a as => simp
        rw [if_pos hcond] at h
        simp at h
  · intro hv hm hok
    simp [validateONIXMessage, buildONIXMessage, optStrPlain, releaseField,
      headerField, productsField, noProductField, validateList, List.lookup,
      messageKeys, hok, Bind.bind, Except.bind]
  · intro v m h
    cases v with
    | obj kvs =>
        simp only [validateONIXMessage] at h
        cases hb : buildONIXMessage kvs with
        | error e => simp [hb] at h
        | ok m0 =>
            simp only [hb] at h
            by_cases hc1 : (!m0.products.isEmpty && m0.no_product) = true
            · rw [if_pos hc1] at h
              simp at h
            · rw [if_neg hc1] at h
              by_cases hc2 : m0.products.isEmpty = true
              · rw [if_pos hc2] at h
                injection h with h2
                subst h2
                cases hq : m0.products with
                | nil => simp [hq]
                | cons a as => simp [hq] at hc2
              · rw [if_neg hc2] at h
                injection h with h2
                subst h2
                have hie : m0.products.isEmpty = false := by
                  revert hc2
                  cases m0.products.isEmpty <;> simp
                have hnp2 : m0.no_product = false := by
                  simpa [hie] using hc1
                rw [hnp2]
                cases hq : m0.products with
                | nil => simp [hq] at hie
                | cons a as => simp [hq]
    | null => simp [validateONIXMessage] at h
    | s a => simp [validateONIXMessage] at h
    | b a => simp [validateONIXMessage] at h
    | arr a => simp [validateONIXMessage] at h

/-- C5 witness: the three statements at concrete inputs. -/
theorem c5_witness :
    validateONIXMessage (Val.obj [("header", Val.obj []),
      ("products", Val.arr [Val.obj []]), ("no_product", Val.b true)]) ≠
        .ok msgNoProducts ∧
    validateONIXMessage (Val.obj [("header", Val.obj []),
      ("products", Val.arr [])]) =
      .ok { datestamp := none, sourcename := none, sourcetype := none,
            release := "3.1", header := emptyAttrs, products := [],
            no_product := true, extra := [] } ∧
    (msgNoProducts.products ≠ [] ↔ msgNoProducts.no_product = false) :=
  ⟨c5_products_no_product_exclusion.1 _ [Val.obj []] _ rfl (by simp) rfl,
   c5_products_no_product_exclusion.2.1 (Val.obj []) emptyAttrs rfl,
   c5_products_no_product_exclusion.2.2 inputNoProducts msgNoProducts rfl⟩

/-! ## Claim C6 -/

/-- C6: the proprietary-requires-name protocol cannot be exercised on
`EpubLicenseExpression` at all: its docstring example fails, because
`get_code(218, _)` is always None (only List 44 is registered), so NO
`EpubLicenseExpression` construction from string fields can succeed. -/
theorem c6_epub_license_unconstructible :
    validateEpubLicenseExpression epubDocstringInput =
      .error "Invalid epub_license_expression_type 10 - must be from List 218" ∧
    getCode 218 "10" = none ∧
    (∀ input, isOkE (validateEpubLicenseExpression input) = false) := by
  refine ⟨rfl, rfl, ?_⟩
  intro input
  cases input with
  | obj raw =>
      simp only [validateEpubLicenseExpression]
      by_cases hcond : (!((normalizeKVs raw).filter
          (fun p => !(epubLicenseExpressionKeys.contains p.1))).isEmpty) = true
      · rw [if_pos hcond]
        rfl
      · rw [if_neg hcond]
        cases hb : buildEpubLicenseExpression (normalizeKVs raw) with
        | error e => rfl
        | ok m1 =>
            exfalso
            unfold buildEpubLicenseExpression at hb
            obtain ⟨t0, -, hb⟩ := exbind_ok hb
            obtain ⟨t1, ht1, -⟩ := exbind_ok hb
            unfold epubTypeCheck at ht1
            by_cases hd : (!pyIsDigit t0 || t0.length != 2) = true
            · rw [if_pos hd] at ht1
              simp at ht1
            · rw [if_neg hd] at ht1
              have hgc : (getCode 218 t0).isNone = true := rfl
              rw [if_pos hgc] at ht1
              simp at ht1
  | null => rfl
  | s a => rfl
  | b a => rfl
  | arr a => rfl

/-! ## Claim C7 -/

/-- C8: the code-list membership claim fails as stated because only
List 44 is registered in `_CODE_LISTS`: the header the repository tests
construct with default_language_of_text="eng" is rejected, naming
List 74, since `get_list` knows nothing of lists 74, 58 and 96 (code
membership does work for the registered List 44). -/
theorem c8_code_lists_unregistered :
    validateHeaderR headerEngInput =
      .error "Invalid DefaultLanguageOfText: eng is not a valid List 74 code" ∧
    getList 74 = none ∧ getList 58 = none ∧ getList 96 = none ∧
    getCode 44 "01" ≠ none :=
  ⟨rfl, rfl, rfl, rfl, by decide⟩

/-! ## Claim C9 -/

/-- C9 counterexample: the message-family models do not normalize empty
strings: `ONIXAttributes` constructed with datestamp="" stores the empty
string, which differs from constructing with the field omitted, so the
claimed for-every-entity equivalence between "" and absent fails. -/
theorem c9_counterexample_attrs_keep_empty :
    validateONIXAttributes (Val.obj [("datestamp", Val.s "")]) =
      .ok { datestamp := some "", sourcename := none, sourcetype := none,
            extra := [] } ∧
    validateONIXAttributes (Val.obj []) = .ok emptyAttrs ∧
    emptyAttrs.datestamp = none ∧ (some "" : Option String) ≠ none :=
  ⟨rfl, rfl, rfl, by simp⟩

/-- C9 amended: for the composites deriving from `ONIXModel` the
normalization does hold, recursively: an optional field given "" equals
the field omitted (also one level down inside a list composite), a
required field given "" fails, and a Sender whose name is the empty
string behaves exactly like one whose name is absent.  The message.py
classes (`ONIXAttributes`, its Header/Product placeholders and
`ONIXMessage`) derive from plain BaseModel and skip this
normalization. -/
theorem c9_amended_normalization_only_for_onixmodel :
    (∀ t idv : String, idv ≠ "" →
      validateSenderIdentifier (Val.obj [("SenderIDType", Val.s t),
        ("IDTypeName", Val.s ""), ("IDValue", Val.s idv)]) =
      validateSenderIdentifier (Val.obj [("SenderIDType", Val.s t),
        ("IDValue", Val.s idv)])) ∧
    (∀ t : String,
      isOkE (validateSenderIdentifier (Val.obj [("SenderIDType", Val.s t),
        ("IDValue", Val.s "")])) = false) ∧
    validateSender (Val.obj [("SenderName", Val.s "")]) =
      validateSender (Val.obj []) ∧
    (∀ nm : String, nm ≠ "" →
      validateSender (Val.obj [("SenderName", Val.s nm),
        ("SenderIdentifier", Val.arr [Val.obj [("SenderIDType", Val.s "16"),
          ("IDTypeName", Val.s ""), ("IDValue", Val.s "123")]])]) =
      validateSender (Val.obj [("SenderName", Val.s nm),
        ("SenderIdentifier", Val.arr [Val.obj [("SenderIDType", Val.s "16"),
          ("IDValue", Val.s "123")]])])) := by
  refine ⟨?_, ?_, rfl, ?_⟩
  · intro t idv hidv
    have hbi : (idv == "") = false := beq_eq_false_iff_ne.mpr hidv
    by_cases ht : t = ""
    · subst ht
      simp [validateSenderIdentifier, normalizeKVs, normalizeVal, hbi,
        senderIdentifierKeys, buildSenderIdentifier, reqStr, optStr, fieldVal,
        List.lookup, Bind.bind, Except.bind]
    · have hbt : (t == "") = false := beq_eq_false_iff_ne.mpr ht
      simp [validateSenderIdentifier, normalizeKVs, normalizeVal, hbi, hbt,
        senderIdentifierKeys, buildSenderIdentifier, reqStr, optStr, fieldVal,
        List.lookup, Bind.bind, Except.bind]
  · intro t
    by_cases ht : t = ""
    · subst ht
      rfl
    · have hbt : (t == "") = false := beq_eq_false_iff_ne.mpr ht
      by_cases hg : (getCode 44 t).isNone = true
      · simp [validateSenderIdentifier, normalizeKVs, normalizeVal, hbt,
          senderIdentifierKeys, buildSenderIdentifier, codeListCheck, reqStr,
          optStr, fieldVal, List.lookup, hg, isOkE, Bind.bind, Except.bind]
      · simp [validateSenderIdentifier, normalizeKVs, normalizeVal, hbt,
          senderIdentifierKeys, buildSenderIdentifier, codeListCheck, reqStr,
          optStr, fieldVal, List.lookup, hg, isOkE, Bind.bind, Except.bind]
  · intro nm hnm
    have hbn : (nm == "") = false := beq_eq_false_iff_ne.mpr hnm
    simp [validateSender, normalizeKVs, normalizeVal, hbn, senderKeys,
      buildSender, listField, validateList, validateSenderIdentifier,
      senderIdentifierKeys, buildSenderIdentifier, codeListCheck, reqStr,
      optStr, fieldVal, List.lookup, pyFalsyStr, proprietaryViolation,
      Bind.bind, Except.bind]

/-- C9 witness: the normalization statements at concrete inputs. -/
theorem c9_witness :
    validateSenderIdentifier (Val.obj [("SenderIDType", Val.s "16"),
      ("IDTypeName", Val.s ""), ("IDValue", Val.s "123")]) =
    validateSenderIdentifier (Val.obj [("SenderIDType", Val.s "16"),
      ("IDValue", Val.s "123")]) ∧
    validateSender (Val.obj [("SenderName", Val.s "Alice"),
      ("SenderIdentifier", Val.arr [Val.obj [("SenderIDType", Val.s "16"),
        ("IDTypeName", Val.s ""), ("IDValue", Val.s "123")]])]) =
    validateSender (Val.obj [("SenderName", Val.s "Alice"),
      ("SenderIdentifier", Val.arr [Val.obj [("SenderIDType", Val.s "16"),
        ("IDValue", Val.s "123")]])]) :=
  ⟨c9_amended_normalization_only_for_onixmodel.1 "16" "123" (by decide),
   c9_amended_normalization_only_for_onixmodel.2.2.2 "Alice" (by decide)⟩

/-! ## Claim C10 -/

/-- C10: a Sender must carry a name or at least one identifier (an empty
Sender fails; every successfully constructed Sender has a present name
or a non-empty identifier list), while an Addressee may be constructed
entirely empty. -/
theorem c10_sender_not_empty_addressee_free :
    (∀ d m, validateSender d = .ok m →
      m.sender_name ≠ none ∨ m.sender_identifiers ≠ []) ∧
    isOkE (validateSender (Val.obj [])) = false ∧
    validateAddressee (Val.obj []) = .ok emptyAddressee := by
  refine ⟨?_, rfl, rfl⟩
  intro d m h
  cases d with
  | obj kvs =>
      have hfal := (validateSender_ok_inv h).2
      by_cases hn : m.sender_name = none
      · right
        intro hids
        rw [hn] at hfal
        rw [hids] at hfal
        simp [pyFalsyStr] at hfal
      · left
        exact hn
  | null => simp [validateSender] at h
  | s a => simp [validateSender] at h
  | b a => simp [validateSender] at h
  | arr a => simp [validateSender] at h

/-- C10 witness: the invariant at a concrete successfully constructed
sender, plus the concrete failure and the empty addressee. -/
theorem c10_witness :
    validateSender (Val.obj [("SenderName", Val.s "X")]) = .ok senderX ∧
    (senderX.sender_name ≠ none ∨ senderX.sender_identifiers ≠ []) :=
  ⟨rfl, c10_sender_not_empty_addressee_free.1
    (Val.obj [("SenderName", Val.s "X")]) senderX rfl⟩

end OnixSpec
